import Mathlib

/-!
Verification of the guest-side GHCB MSR protocol codec.

The development shallowly embeds the crate's request/response types and
their encode/decode functions over `Nat`, with machine-integer widths
made explicit through masks (`&&&`), shifts (`<<<`, `>>>`) and `% 2^w`
at the places where the source casts between integer widths. Each
definition mirrors one item of the source (`src/lib.rs` and the
per-message-pair modules).
-/

namespace Ghcb

/-- Errors from parsing the hypervisor's response (`GhcbMsrError` in
`src/lib.rs`). `MismatchedData` carries the unexpected actual value. -/
inductive GhcbMsrError where
  | InvalidInfo
  | MismatchedInfo
  | InvalidData
  | MismatchedData (actual : Nat)
  | ShouldNotReturn
deriving DecidableEq, Repr

/-- Request/response codes for the MSR protocol (`GhcbMsrInfo` in
`src/lib.rs`). -/
inductive GhcbMsrInfo where
  | GHCB_GPA
  | SEV_INFO_RESP
  | SEV_INFO_REQ
  | CPUID_REQ
  | CPUID_RESP
  | AP_RESET_HOLD_REQ
  | AP_RESET_HOLD_RESP
  | PREF_GHCB_GPA_REQ
  | PREF_GHCB_GPA_RESP
  | REG_GHCB_GPA_REQ
  | REG_GHCB_GPA_RESP
  | STATE_CHANGE_REQ
  | STATE_CHANGE_RESP
  | RUN_VMPL_REQ
  | RUN_VMPL_RESP
  | FEAT_SUPPORT_REQ
  | FEAT_SUPPORT_RESP
  | TERM_REQ
deriving DecidableEq, Repr

/-- The numeric discriminant of each tag (the `#[repr(u16)]` values of
`GhcbMsrInfo` in `src/lib.rs`). -/
def GhcbMsrInfo.val : GhcbMsrInfo → Nat
  | .GHCB_GPA => 0x00
  | .SEV_INFO_RESP => 0x01
  | .SEV_INFO_REQ => 0x02
  | .CPUID_REQ => 0x04
  | .CPUID_RESP => 0x05
  | .AP_RESET_HOLD_REQ => 0x06
  | .AP_RESET_HOLD_RESP => 0x07
  | .PREF_GHCB_GPA_REQ => 0x10
  | .PREF_GHCB_GPA_RESP => 0x11
  | .REG_GHCB_GPA_REQ => 0x12
  | .REG_GHCB_GPA_RESP => 0x13
  | .STATE_CHANGE_REQ => 0x14
  | .STATE_CHANGE_RESP => 0x15
  | .RUN_VMPL_REQ => 0x16
  | .RUN_VMPL_RESP => 0x17
  | .FEAT_SUPPORT_REQ => 0x80
  | .FEAT_SUPPORT_RESP => 0x81
  | .TERM_REQ => 0x100

/-- `impl TryFrom<u16> for GhcbMsrInfo` (`src/lib.rs` lines 150-203):
an exact-equality chain over the defined discriminants, any other value
failing with `InvalidInfo`. -/
def GhcbMsrInfo.try_from (val : Nat) : Except GhcbMsrError GhcbMsrInfo :=
  if val = GhcbMsrInfo.GHCB_GPA.val then .ok .GHCB_GPA
  else if val = GhcbMsrInfo.SEV_INFO_RESP.val then .ok .SEV_INFO_RESP
  else if val = GhcbMsrInfo.SEV_INFO_REQ.val then .ok .SEV_INFO_REQ
  else if val = GhcbMsrInfo.CPUID_REQ.val then .ok .CPUID_REQ
  else if val = GhcbMsrInfo.CPUID_RESP.val then .ok .CPUID_RESP
  else if val = GhcbMsrInfo.AP_RESET_HOLD_REQ.val then .ok .AP_RESET_HOLD_REQ
  else if val = GhcbMsrInfo.AP_RESET_HOLD_RESP.val then .ok .AP_RESET_HOLD_RESP
  else if val = GhcbMsrInfo.PREF_GHCB_GPA_REQ.val then .ok .PREF_GHCB_GPA_REQ
  else if val = GhcbMsrInfo.PREF_GHCB_GPA_RESP.val then .ok .PREF_GHCB_GPA_RESP
  else if val = GhcbMsrInfo.REG_GHCB_GPA_REQ.val then .ok .REG_GHCB_GPA_REQ
  else if val = GhcbMsrInfo.REG_GHCB_GPA_RESP.val then .ok .REG_GHCB_GPA_RESP
  else if val = GhcbMsrInfo.STATE_CHANGE_REQ.val then .ok .STATE_CHANGE_REQ
  else if val = GhcbMsrInfo.STATE_CHANGE_RESP.val then .ok .STATE_CHANGE_RESP
  else if val = GhcbMsrInfo.RUN_VMPL_REQ.val then .ok .RUN_VMPL_REQ
  else if val = GhcbMsrInfo.RUN_VMPL_RESP.val then .ok .RUN_VMPL_RESP
  else if val = GhcbMsrInfo.FEAT_SUPPORT_REQ.val then .ok .FEAT_SUPPORT_REQ
  else if val = GhcbMsrInfo.FEAT_SUPPORT_RESP.val then .ok .FEAT_SUPPORT_RESP
  else if val = GhcbMsrInfo.TERM_REQ.val then .ok .TERM_REQ
  else .error .InvalidInfo

/-- `parse_msr` (`src/lib.rs` lines 231-233): split a raw 64-bit value
into the 12-bit Info field and the 52-bit Data field. -/
def parse_msr (msr : Nat) : Nat × Nat :=
  (msr &&& 0xfff, msr >>> 12)

/-- The default `GhcbMsrRequest::msr()` trait method (`src/lib.rs` lines
222-225): pack a request's Data payload (masked to 52 bits) and Info tag
into one 64-bit value. -/
def msrOf (info : GhcbMsrInfo) (data : Nat) : Nat :=
  ((data &&& 0xfffffffffffff) <<< 12) ||| (info.val &&& 0xfff)

/-- The list of numeric discriminants of the defined tags. -/
def ghcbTagValues : List Nat :=
  [0x00, 0x01, 0x02, 0x04, 0x05, 0x06, 0x07, 0x10, 0x11, 0x12, 0x13,
   0x14, 0x15, 0x16, 0x17, 0x80, 0x81, 0x100]

/-- `SevInfoResp` (`src/sev_info.rs`): hypervisor capability response.
Fields are `Nat`s bounded by the extraction masks (u16/u16/u8 in the
source). Field order follows the source struct. -/
structure SevInfoResp where
  max_ver : Nat
  min_ver : Nat
  enc_bit_no : Nat
deriving DecidableEq, Repr

/-- `impl TryFrom<u64> for SevInfoResp` (`src/sev_info.rs` lines 40-58). -/
def SevInfoResp.try_from (resp : Nat) : Except GhcbMsrError SevInfoResp :=
  let info := (parse_msr resp).1
  let data := (parse_msr resp).2
  match GhcbMsrInfo.try_from info with
  | .error e => .error e
  | .ok info =>
    if info ≠ GhcbMsrInfo.SEV_INFO_RESP then .error .MismatchedInfo
    else
      .ok { max_ver := (data >>> 36) &&& 0xffff,
            min_ver := (data >>> 20) &&& 0xffff,
            enc_bit_no := (data >>> 12) &&& 0xff }

/-- `CpuidReg` (`src/cpuid.rs`): the requested CPUID register. -/
inductive CpuidReg where
  | EAX
  | EBX
  | ECX
  | EDX
deriving DecidableEq, Repr

/-- The `#[repr(u8)]` discriminants of `CpuidReg`. -/
def CpuidReg.val : CpuidReg → Nat
  | .EAX => 0
  | .EBX => 1
  | .ECX => 2
  | .EDX => 3

/-- `impl From<u8> for CpuidReg` (`src/cpuid.rs` lines 15-25): an
exact-equality chain; the source's `unreachable!()` panic branch for
values above 3 is modelled as `none`. -/
def CpuidReg.fromU8 (val : Nat) : Option CpuidReg :=
  if val = CpuidReg.EAX.val then some .EAX
  else if val = CpuidReg.EBX.val then some .EBX
  else if val = CpuidReg.ECX.val then some .ECX
  else if val = CpuidReg.EDX.val then some .EDX
  else none

/-- `CpuidReq` (`src/cpuid.rs`): request for one CPUID register. -/
structure CpuidReq where
  data : Nat
deriving DecidableEq, Repr

/-- `CpuidReq::new` (`src/cpuid.rs` lines 35-43). The `% 2 ^ 32` models
the `u32` type of the `cpuid_function` parameter (the source cast
`cpuid_function as u64` is lossless). -/
def CpuidReq.new (cpuid_function : Nat) (reg : CpuidReg) : CpuidReq :=
  { data := ((cpuid_function % 2 ^ 32) <<< 20) ||| (reg.val <<< 18) }

/-- `CpuidResp` (`src/cpuid.rs`): response carrying the function and
register. -/
structure CpuidResp where
  function : Nat
  reg : CpuidReg
deriving DecidableEq, Repr

/-- `impl TryFrom<u64> for CpuidResp` (`src/cpuid.rs` lines 64-79).
The outer `Option` models panic-freedom: `none` is the `unreachable!()`
panic inside `CpuidReg::from`, `some` a normal return. The `% 2 ^ 32`
models the `as u32` cast on the extracted function. -/
def CpuidResp.try_from (resp : Nat) :
    Option (Except GhcbMsrError CpuidResp) :=
  let info := (parse_msr resp).1
  let data := (parse_msr resp).2
  match GhcbMsrInfo.try_from info with
  | .error e => some (.error e)
  | .ok info =>
    if info ≠ GhcbMsrInfo.CPUID_RESP then some (.error .MismatchedInfo)
    else if data &&& 0xff ≠ 0 then some (.error .InvalidData)
    else
      match CpuidReg.fromU8 ((data >>> 18) &&& 0b11) with
      | none => none
      | some reg =>
        some (.ok { function := ((data >>> 20) &&& 0xffffffff) % 2 ^ 32,
                    reg := reg })

/-- `ApResetHoldResp` (`src/ap_reset_hold.rs`): payload-less marker. -/
structure ApResetHoldResp where
deriving DecidableEq, Repr

/-- `impl TryFrom<u64> for ApResetHoldResp` (`src/ap_reset_hold.rs`
lines 36-49). -/
def ApResetHoldResp.try_from (resp : Nat) :
    Except GhcbMsrError ApResetHoldResp :=
  let info := (parse_msr resp).1
  let data := (parse_msr resp).2
  match GhcbMsrInfo.try_from info with
  | .error e => .error e
  | .ok info =>
    if info ≠ GhcbMsrInfo.AP_RESET_HOLD_RESP then .error .MismatchedInfo
    else if data = 0 then .error .InvalidData
    else .ok {}

/-- `RegisterGhcbReq` (`src/register_ghcb.rs`): register a GHCB GFN. -/
structure RegisterGhcbReq where
  data : Nat
deriving DecidableEq, Repr

/-- `RegisterGhcbReq::new` (`src/register_ghcb.rs` lines 14-16). -/
def RegisterGhcbReq.new (gfn : Nat) : RegisterGhcbReq :=
  { data := gfn }

/-- `RegisterGhcbResp` (`src/register_ghcb.rs`): echoed GFN. -/
structure RegisterGhcbResp where
  gfn : Nat
deriving DecidableEq, Repr

/-- `impl TryFrom<u64> for RegisterGhcbResp` (`src/register_ghcb.rs`
lines 46-56). -/
def RegisterGhcbResp.try_from (resp : Nat) :
    Except GhcbMsrError RegisterGhcbResp :=
  let info := (parse_msr resp).1
  let data := (parse_msr resp).2
  match GhcbMsrInfo.try_from info with
  | .error e => .error e
  | .ok info =>
    if info ≠ GhcbMsrInfo.REG_GHCB_GPA_RESP then .error .MismatchedInfo
    else .ok { gfn := data }

/-- The overridden `GhcbMsrRequest::response` for `RegisterGhcbReq`
(`src/register_ghcb.rs` lines 27-37): decode, then require the echoed
GFN to equal the one sent, else `MismatchedData(actual)`. -/
def RegisterGhcbReq.response (self : RegisterGhcbReq) (resp : Nat) :
    Except GhcbMsrError RegisterGhcbResp :=
  match RegisterGhcbResp.try_from resp with
  | .error e => .error e
  | .ok r =>
    if r.gfn ≠ self.data then .error (.MismatchedData r.gfn)
    else .ok r

/-- `PageOp` (`src/page_state.rs`): target page state. -/
inductive PageOp where
  | Private
  | Shared
deriving DecidableEq, Repr

/-- The `#[repr(u8)]` discriminants of `PageOp`. -/
def PageOp.val : PageOp → Nat
  | .Private => 1
  | .Shared => 2

/-- `PageStateReq` (`src/page_state.rs`): change the state of a page. -/
structure PageStateReq where
  data : Nat
deriving DecidableEq, Repr

/-- `PageStateReq::new` (`src/page_state.rs` lines 21-28):
`data = (op << 40) | gfn`, with no masking of `gfn`. -/
def PageStateReq.new (gfn : Nat) (op : PageOp) : PageStateReq :=
  { data := (op.val <<< 40) ||| gfn }

/-- `PageStateResp` (`src/page_state.rs`): error code, zero = success. -/
structure PageStateResp where
  error_code : Nat
deriving DecidableEq, Repr

/-- `impl TryFrom<u64> for PageStateResp` (`src/page_state.rs` lines
48-63). The `% 2 ^ 32` models the `as u32` cast. -/
def PageStateResp.try_from (resp : Nat) :
    Except GhcbMsrError PageStateResp :=
  let info := (parse_msr resp).1
  let data := (parse_msr resp).2
  match GhcbMsrInfo.try_from info with
  | .error e => .error e
  | .ok info =>
    if info ≠ GhcbMsrInfo.STATE_CHANGE_RESP then .error .MismatchedInfo
    else if data &&& 0xfffff ≠ 0 then .error .InvalidData
    else .ok { error_code := (data >>> 20) % 2 ^ 32 }

/-- `RunVmplResp` (`src/run_vmpl.rs`): error code, zero = success. -/
structure RunVmplResp where
  error_code : Nat
deriving DecidableEq, Repr

/-- `impl TryFrom<u64> for RunVmplResp` (`src/run_vmpl.rs` lines 40-54).
The `% 2 ^ 32` models the `as u32` cast. -/
def RunVmplResp.try_from (resp : Nat) :
    Except GhcbMsrError RunVmplResp :=
  let info := (parse_msr resp).1
  let data := (parse_msr resp).2
  match GhcbMsrInfo.try_from info with
  | .error e => .error e
  | .ok info =>
    if info ≠ GhcbMsrInfo.RUN_VMPL_RESP then .error .MismatchedInfo
    else if data &&& 0xfffff ≠ 0 then .error .InvalidData
    else .ok { error_code := (data >>> 20) % 2 ^ 32 }

/-- `TerminationReason` (`src/termination.rs`). -/
inductive TerminationReason where
  | GeneralTermination
  | GhcbProtRangeNotSupported
  | SevSnpNotSupported
deriving DecidableEq, Repr

/-- The `#[repr(u8)]` discriminants of `TerminationReason`. -/
def TerminationReason.val : TerminationReason → Nat
  | .GeneralTermination => 1
  | .GhcbProtRangeNotSupported => 2
  | .SevSnpNotSupported => 3

/-- `TerminationReq` (`src/termination.rs`): request to be terminated. -/
structure TerminationReq where
  data : Nat
deriving DecidableEq, Repr

/-- `TerminationReq::new` (`src/termination.rs` lines 22-32). The
`% 2 ^ 8` models the `u8` type of the `code_set` parameter. -/
def TerminationReq.new (code_set : Nat) (reason : TerminationReason) :
    TerminationReq :=
  { data := (reason.val <<< 4) ||| (code_set % 2 ^ 8) }

/-- `TerminationResp` (`src/termination.rs`). -/
structure TerminationResp where
deriving DecidableEq, Repr

/-- `impl TryFrom<u64> for TerminationResp` (`src/termination.rs` lines
47-52): unconditionally `ShouldNotReturn`. -/
def TerminationResp.try_from (_resp : Nat) :
    Except GhcbMsrError TerminationResp :=
  .error .ShouldNotReturn

/-- `TerminationReq`'s `GhcbMsrRequest::response` is the default trait
method (`src/lib.rs` lines 214-219): delegate to the response type's
decode. -/
def TerminationReq.response (_self : TerminationReq) (resp : Nat) :
    Except GhcbMsrError TerminationResp :=
  TerminationResp.try_from resp

lemma val_lt_two_pow (t : GhcbMsrInfo) : t.val < 2 ^ 12 := by
  cases t <;> simp [GhcbMsrInfo.val]

lemma testBit_of_lt_pow {t n : Nat} (h : t < 2 ^ n) {i : Nat} (hn : n ≤ i) :
    t.testBit i = false :=
  Nat.testBit_lt_two_pow (lt_of_lt_of_le h (Nat.pow_le_pow_right (by omega) hn))

/-- Low `n` bits of `(x <<< n) ||| t` are exactly `t` when `t < 2 ^ n`. -/
lemma land_lor_shiftLeft {x t n : Nat} (ht : t < 2 ^ n) :
    ((x <<< n) ||| t) &&& (2 ^ n - 1) = t := by
  apply Nat.eq_of_testBit_eq
  intro i
  rcases Nat.lt_or_ge i n with hi | hi
  · simp [Nat.testBit_land, Nat.testBit_lor, Nat.testBit_shiftLeft,
      Nat.testBit_two_pow_sub_one, hi, Nat.not_le.mpr hi]
  · simp [Nat.testBit_land, Nat.testBit_two_pow_sub_one, Nat.not_lt.mpr hi,
      testBit_of_lt_pow ht hi]

/-- High bits of `(x <<< n) ||| t` are exactly `x` when `t < 2 ^ n`. -/
lemma shiftRight_lor_shiftLeft {x t n : Nat} (ht : t < 2 ^ n) :
    ((x <<< n) ||| t) >>> n = x := by
  apply Nat.eq_of_testBit_eq
  intro i
  simp [Nat.testBit_shiftRight, Nat.testBit_lor, Nat.testBit_shiftLeft,
    testBit_of_lt_pow ht (Nat.le_add_right n i)]

/-- A value below `2 ^ n` is unchanged by the `n`-bit mask. -/
lemma land_mask_of_lt {t n : Nat} (h : t < 2 ^ n) : t &&& (2 ^ n - 1) = t := by
  apply Nat.eq_of_testBit_eq
  intro i
  rcases Nat.lt_or_ge i n with hi | hi
  · simp [Nat.testBit_land, Nat.testBit_two_pow_sub_one, hi]
  · simp [Nat.testBit_land, Nat.testBit_two_pow_sub_one, Nat.not_lt.mpr hi,
      testBit_of_lt_pow h hi]

/-- C1: for every data value `d` with `d < 2 ^ 52` and every tag `t` of
the closed tag set, splitting the packed value `(d <<< 12) ||| t.val`
recovers exactly `(t.val, d)`; and for every request — i.e. every tag
`info` and payload `data` — the value returned by the `msr()` method
splits back into the request's own tag and its data masked to 52
bits. -/
theorem split_round_trip :
    (∀ (d : Nat) (t : GhcbMsrInfo), d < 2 ^ 52 →
      parse_msr ((d <<< 12) ||| t.val) = (t.val, d)) ∧
    (∀ (info : GhcbMsrInfo) (data : Nat),
      parse_msr (msrOf info data) = (info.val, data &&& 0xfffffffffffff)) := by
  have h4095 : (0xfff : Nat) = 2 ^ 12 - 1 := by norm_num
  constructor
  · intro d t _hd
    unfold parse_msr
    rw [h4095, land_lor_shiftLeft (val_lt_two_pow t),
      shiftRight_lor_shiftLeft (val_lt_two_pow t)]
  · intro info data
    unfold msrOf parse_msr
    rw [h4095, land_mask_of_lt (val_lt_two_pow info),
      land_lor_shiftLeft (val_lt_two_pow info),
      shiftRight_lor_shiftLeft (val_lt_two_pow info)]

/-- Witness for C1 at `d = 0x1234`, `t = CPUID_REQ`. -/
theorem split_round_trip_witness :
    parse_msr ((0x1234 <<< 12) ||| GhcbMsrInfo.CPUID_REQ.val) =
      (GhcbMsrInfo.CPUID_REQ.val, 0x1234) :=
  split_round_trip.1 0x1234 .CPUID_REQ (by norm_num)

/-- C2: the tag conversion is pure and total: for each defined tag
constant it maps the constant's numeric value back to that tag; the
example values `0x03` and `0xFFF`, and more generally every `u16` value
outside the defined set, map to `InvalidInfo`. (Totality — no panic, no
fallback tag — is witnessed by `GhcbMsrInfo.try_from` being a total Lean
function into `Except`.) -/
theorem tag_from_u16_total :
    (∀ t : GhcbMsrInfo, GhcbMsrInfo.try_from t.val = .ok t) ∧
    GhcbMsrInfo.try_from 0x03 = .error .InvalidInfo ∧
    GhcbMsrInfo.try_from 0xFFF = .error .InvalidInfo ∧
    (∀ v : Nat, v < 2 ^ 16 → v ∉ ghcbTagValues →
      GhcbMsrInfo.try_from v = .error .InvalidInfo) := by
  refine ⟨?_, rfl, rfl, ?_⟩
  · intro t
    cases t <;> rfl
  · intro v _hv16 hnot
    simp only [ghcbTagValues, List.mem_cons, List.not_mem_nil, or_false,
      not_or] at hnot
    obtain ⟨h0, h1, h2, h4, h5, h6, h7, h10, h11, h12, h13, h14, h15,
      h16, h17, h80, h81, h100⟩ := hnot
    simp [GhcbMsrInfo.try_from, GhcbMsrInfo.val, h0, h1, h2, h4, h5, h6,
      h7, h10, h11, h12, h13, h14, h15, h16, h17, h80, h81, h100]

/-- Witness for C2 at the undefined value `0x37`. -/
theorem tag_from_u16_total_witness :
    GhcbMsrInfo.try_from 0x37 = .error .InvalidInfo :=
  tag_from_u16_total.2.2.2 0x37 (by norm_num) (by decide)

lemma try_from_val (t : GhcbMsrInfo) : GhcbMsrInfo.try_from t.val = .ok t := by
  cases t <;> rfl

lemma land_lor_shiftLeft_of_any (x g n : Nat) :
    ((x <<< n) ||| g) &&& (2 ^ n - 1) = g &&& (2 ^ n - 1) := by
  apply Nat.eq_of_testBit_eq
  intro i
  rcases Nat.lt_or_ge i n with hi | hi
  · simp [Nat.testBit_land, Nat.testBit_lor, Nat.testBit_shiftLeft,
      Nat.testBit_two_pow_sub_one, hi, Nat.not_le.mpr hi]
  · simp [Nat.testBit_land, Nat.testBit_two_pow_sub_one, Nat.not_lt.mpr hi]

lemma shiftRight_lt_pow {r n w : Nat} (h : r < 2 ^ (n + w)) : r >>> n < 2 ^ w := by
  rw [Nat.shiftRight_eq_div_pow]
  apply Nat.div_lt_of_lt_mul
  rw [← Nat.pow_add]
  exact Nat.add_comm n w ▸ h

lemma fromU8_isSome {v : Nat} (h : v ≤ 3) : (CpuidReg.fromU8 v).isSome := by
  interval_cases v <;> rfl

/-- C3: decoding a registration response through the originating request
succeeds exactly when the raw value decodes as a valid
GHCB-registration response whose echoed Data field equals the requested
`gfn` (and then the returned `gfn` is the requested one); a validly
decoding response echoing a different value `a` fails with
`MismatchedData a`. -/
theorem register_ghcb_echo (g r : Nat) :
    (∀ a : RegisterGhcbResp,
      ((RegisterGhcbReq.new g).response r = .ok a ↔
        (RegisterGhcbResp.try_from r = .ok a ∧ a.gfn = g))) ∧
    (∀ a : RegisterGhcbResp, RegisterGhcbResp.try_from r = .ok a →
      a.gfn ≠ g →
      (RegisterGhcbReq.new g).response r = .error (.MismatchedData a.gfn)) := by
  constructor
  · intro a
    constructor
    · intro h
      unfold RegisterGhcbReq.response at h
      cases htf : RegisterGhcbResp.try_from r with
      | error e => rw [htf] at h; cases h
      | ok b =>
        rw [htf] at h
        simp only [RegisterGhcbReq.new] at h
        by_cases hb : b.gfn ≠ g
        · rw [if_pos hb] at h
          cases h
        · rw [if_neg hb] at h
          injection h with h'
          subst h'
          exact ⟨rfl, not_not.mp hb⟩
    · rintro ⟨htf, hg⟩
      unfold RegisterGhcbReq.response
      rw [htf]
      simp [RegisterGhcbReq.new, hg]
  · intro a htf hne
    unfold RegisterGhcbReq.response
    rw [htf]
    simp only [RegisterGhcbReq.new]
    simp [hne]

/-- Witness for C3: requesting gfn `0x1234`, a response echoing `0x1234`
succeeds with gfn `0x1234`, and a response echoing `0x1235` fails with
`MismatchedData 0x1235`. -/
theorem register_ghcb_echo_witness :
    (RegisterGhcbReq.new 0x1234).response ((0x1234 <<< 12) ||| 0x13) =
      .ok { gfn := 0x1234 } ∧
    (RegisterGhcbReq.new 0x1234).response ((0x1235 <<< 12) ||| 0x13) =
      .error (.MismatchedData 0x1235) :=
  ⟨((register_ghcb_echo 0x1234 ((0x1234 <<< 12) ||| 0x13)).1
      { gfn := 0x1234 }).mpr ⟨rfl, rfl⟩,
   (register_ghcb_echo 0x1234 ((0x1235 <<< 12) ||| 0x13)).2
      { gfn := 0x1235 } rfl (by norm_num)⟩

/-- C4: for page-state-change and VMPL-run responses carrying the
correct response tag, a nonzero bit among the low 20 bits of the Data
field fails with `InvalidData`; when the low 20 bits are all zero,
decoding succeeds for every value of the high bits and the returned
`error_code` is Data bits [20:52) exactly. -/
theorem reserved_bits_enforced (r : Nat) (hr : r < 2 ^ 64) :
    (r &&& 0xfff = GhcbMsrInfo.STATE_CHANGE_RESP.val →
      (((r >>> 12) &&& 0xfffff ≠ 0 →
          PageStateResp.try_from r = .error .InvalidData) ∧
       ((r >>> 12) &&& 0xfffff = 0 →
          PageStateResp.try_from r = .ok { error_code := (r >>> 12) >>> 20 }))) ∧
    (r &&& 0xfff = GhcbMsrInfo.RUN_VMPL_RESP.val →
      (((r >>> 12) &&& 0xfffff ≠ 0 →
          RunVmplResp.try_from r = .error .InvalidData) ∧
       ((r >>> 12) &&& 0xfffff = 0 →
          RunVmplResp.try_from r = .ok { error_code := (r >>> 12) >>> 20 }))) := by
  have h32 : r >>> 32 < 2 ^ 32 := shiftRight_lt_pow (n := 32) (w := 32) hr
  have h32' : (r >>> 12) >>> 20 < 4294967296 := by
    rw [← Nat.shiftRight_add]
    omega
  constructor
  · intro htag
    constructor
    · intro hd
      simp [PageStateResp.try_from, parse_msr, htag, try_from_val, hd]
    · intro hd
      simp [PageStateResp.try_from, parse_msr, htag, try_from_val, hd,
        Nat.mod_eq_of_lt h32']
  · intro htag
    constructor
    · intro hd
      simp [RunVmplResp.try_from, parse_msr, htag, try_from_val, hd]
    · intro hd
      simp [RunVmplResp.try_from, parse_msr, htag, try_from_val, hd,
        Nat.mod_eq_of_lt h32']

/-- Witness for C4: a page-state response with error code `0xABC` and
zero reserved bits decodes to exactly that code; a VMPL-run response
with a nonzero reserved bit is `InvalidData`. -/
theorem reserved_bits_enforced_witness :
    PageStateResp.try_from ((0xABC00000 <<< 12) ||| 0x15) =
      .ok { error_code := 0xABC } ∧
    RunVmplResp.try_from ((1 <<< 12) ||| 0x17) = .error .InvalidData :=
  ⟨((reserved_bits_enforced ((0xABC00000 <<< 12) ||| 0x15)
      (by decide)).1 (by decide)).2 (by decide),
   ((reserved_bits_enforced ((1 <<< 12) ||| 0x17)
      (by decide)).2 (by decide)).1 (by decide)⟩

/-- C5: every raw value parsed through the termination response path —
`TerminationResp`'s decode, and hence `TerminationReq`'s `response` for
every termination request — returns `ShouldNotReturn`; no input yields a
successful termination response. -/
theorem termination_always_fails (req : TerminationReq) (r : Nat) :
    TerminationResp.try_from r = .error .ShouldNotReturn ∧
    req.response r = .error .ShouldNotReturn :=
  ⟨rfl, rfl⟩

/-- C6: every raw value whose Info field resolves to the SEV-info
response tag decodes successfully (no reserved-bit check), extracting
`enc_bit_no` from bits [12:20), `min_ver` from bits [20:36) and
`max_ver` from bits [36:52) of the post-split Data field `r >>> 12`. -/
theorem sev_info_fields (r : Nat)
    (htag : r &&& 0xfff = GhcbMsrInfo.SEV_INFO_RESP.val) :
    SevInfoResp.try_from r =
      .ok { max_ver := ((r >>> 12) >>> 36) &&& 0xffff,
            min_ver := ((r >>> 12) >>> 20) &&& 0xffff,
            enc_bit_no := ((r >>> 12) >>> 12) &&& 0xff } := by
  simp [SevInfoResp.try_from, parse_msr, htag, try_from_val]

/-- Witness for C6: a response with Data `0x33000` (so `enc_bit_no`
lives at Data bits [12:20)) decodes to `enc_bit_no = 0x33`. -/
theorem sev_info_fields_witness :
    SevInfoResp.try_from ((0x33000 <<< 12) ||| 0x01) =
      .ok { max_ver := 0, min_ver := 0, enc_bit_no := 0x33 } :=
  sev_info_fields ((0x33000 <<< 12) ||| 0x01) (by decide)

/-- C8: packing a CPUID request for function `0x80000001`, register
`ECX`, puts `2` in Data bits [18:20) and `0x80000001` in Data bits
[20:52) with a zero low byte; decoding a raw value with the CPUID
response tag and the same Data recovers `function = 0x80000001`,
`reg = ECX` (and does not panic: the result is `some`). -/
theorem cpuid_pack_extract :
    ((CpuidReq.new 0x80000001 .ECX).data >>> 18) &&& 0b11 = 2 ∧
    ((CpuidReq.new 0x80000001 .ECX).data >>> 20) &&& 0xffffffff = 0x80000001 ∧
    (CpuidReq.new 0x80000001 .ECX).data &&& 0xff = 0 ∧
    CpuidResp.try_from (msrOf .CPUID_RESP (CpuidReq.new 0x80000001 .ECX).data) =
      some (.ok { function := 0x80000001, reg := .ECX }) :=
  ⟨rfl, rfl, rfl, rfl⟩

/-- C9: a response whose Info field resolves to the AP-reset-hold
response tag fails with `InvalidData` when its Data field is zero, and
decodes to the payload-less marker when its Data field is nonzero. -/
theorem ap_reset_hold_zero_data (r : Nat)
    (htag : r &&& 0xfff = GhcbMsrInfo.AP_RESET_HOLD_RESP.val) :
    (r >>> 12 = 0 → ApResetHoldResp.try_from r = .error .InvalidData) ∧
    (r >>> 12 ≠ 0 → ApResetHoldResp.try_from r = .ok {}) := by
  constructor <;> intro hd <;>
    simp [ApResetHoldResp.try_from, parse_msr, htag, try_from_val, hd]

/-- Witness for C9: raw `0x07` (correct tag, zero data) is
`InvalidData`; raw `0x1007` (correct tag, data `1`) decodes. -/
theorem ap_reset_hold_zero_data_witness :
    ApResetHoldResp.try_from 0x07 = .error .InvalidData ∧
    ApResetHoldResp.try_from 0x1007 = .ok {} :=
  ⟨(ap_reset_hold_zero_data 0x07 (by decide)).1 (by decide),
   (ap_reset_hold_zero_data 0x1007 (by decide)).2 (by decide)⟩

/-- C10: the CPUID decode path is total and never reaches the panicking
`unreachable!()` branch of `CpuidReg::from`: that branch (modelled as
`none`) is taken for every input above 3, but the decoder only invokes
the conversion on `(data >>> 18) &&& 0b11 ≤ 3`, so decoding returns
`some` result for every raw input. -/
theorem cpuid_decode_no_panic :
    (∀ v : Nat, 3 < v → CpuidReg.fromU8 v = none) ∧
    (∀ r : Nat, (CpuidResp.try_from r).isSome = true) := by
  constructor
  · intro v hv
    have h0 : ¬v = 0 := by omega
    have h1 : ¬v = 1 := by omega
    have h2 : ¬v = 2 := by omega
    have h3 : ¬v = 3 := by omega
    simp [CpuidReg.fromU8, CpuidReg.val, h0, h1, h2, h3]
  · intro r
    cases htf : GhcbMsrInfo.try_from (parse_msr r).1 with
    | error e => simp [CpuidResp.try_from, htf]
    | ok info =>
      by_cases hinfo : info = GhcbMsrInfo.CPUID_RESP
      · subst hinfo
        by_cases hdata : (parse_msr r).2 &&& 0xff = 0
        · obtain ⟨reg, hreg⟩ := Option.isSome_iff_exists.mp
            (fromU8_isSome (Nat.and_le_right
              (n := (parse_msr r).2 >>> 18) (m := 0b11)))
          simp [CpuidResp.try_from, htf, hdata, hreg]
        · simp [CpuidResp.try_from, htf, hdata]
      · simp [CpuidResp.try_from, htf, hinfo]

/-- Witness for C10: the panic branch exists at input 4, yet decoding an
arbitrary raw value returns a (`some`) result. -/
theorem cpuid_decode_no_panic_witness :
    CpuidReg.fromU8 4 = none ∧
    (CpuidResp.try_from 0xdeadbeef).isSome = true :=
  ⟨cpuid_decode_no_panic.1 4 (by norm_num),
   cpuid_decode_no_panic.2 0xdeadbeef⟩

/-- C7 counterexample: at the concrete input `gfn = 2 ^ 40`,
`op = Shared`, the claim's bit [40:41) does not hold the operation
value 2 (one bit cannot), the two bits [40:42) hold `3` — the
operation OR-merged with the unmasked high bit of `gfn` — rather than
the operation value, and Data bits [0:40) are `0`, not the guest frame
number `2 ^ 40`. -/
theorem page_state_layout_cex :
    ((PageStateReq.new (2 ^ 40) PageOp.Shared).data >>> 40) &&& 1 ≠
      PageOp.val PageOp.Shared ∧
    ((PageStateReq.new (2 ^ 40) PageOp.Shared).data >>> 40) &&& 3 ≠
      PageOp.val PageOp.Shared ∧
    (PageStateReq.new (2 ^ 40) PageOp.Shared).data &&& 0xffffffffff = 0 :=
  ⟨by decide, by decide, by decide⟩

/-- C7 amended: `PageStateReq::new` places the guest frame number in
Data bits [0:40) and the operation value (1 = make-private,
2 = make-shared) in Data bits [40:42) whenever `gfn < 2 ^ 40`; `gfn` is
not truncated by `new` — its bits at positions ≥ 40 are OR-merged into
the operation field — while bits [0:40) always equal the low 40 bits of
`gfn` (truncation to the 52-bit Data field happens only in `msr()`). -/
theorem page_state_new_layout :
    (∀ (gfn : Nat) (op : PageOp),
      (PageStateReq.new gfn op).data &&& 0xffffffffff =
        gfn &&& 0xffffffffff) ∧
    (∀ (gfn : Nat) (op : PageOp), gfn < 2 ^ 40 →
      (PageStateReq.new gfn op).data &&& 0xffffffffff = gfn ∧
      ((PageStateReq.new gfn op).data >>> 40) &&& 3 = op.val) := by
  have hmask : (0xffffffffff : Nat) = 2 ^ 40 - 1 := by norm_num
  constructor
  · intro gfn op
    unfold PageStateReq.new
    rw [hmask]
    exact land_lor_shiftLeft_of_any op.val gfn 40
  · intro gfn op hg
    constructor
    · unfold PageStateReq.new
      rw [hmask, land_lor_shiftLeft_of_any op.val gfn 40, land_mask_of_lt hg]
    · unfold PageStateReq.new
      rw [shiftRight_lor_shiftLeft hg]
      cases op <;> rfl

/-- Witness for C7 (amended) at `gfn = 0x1234`, `op = Shared`. -/
theorem page_state_new_layout_witness :
    (PageStateReq.new 0x1234 PageOp.Shared).data &&& 0xffffffffff = 0x1234 ∧
    ((PageStateReq.new 0x1234 PageOp.Shared).data >>> 40) &&& 3 =
      PageOp.val PageOp.Shared :=
  page_state_new_layout.2 0x1234 .Shared (by norm_num)

end Ghcb
